import Mathlib

/-!
Verification development for the MediaBrain repository.

Shallow embedding conventions:
* `datetime` values are embedded as integer seconds; `datetime.now().isoformat()`
  stores the current integer instant, `datetime.fromisoformat` reads it back,
  and `timedelta(days = n)` is `n * 86400` seconds.
* The SQLite table `media_items` is a list of `MediaItem` rows plus an
  auto-increment counter (`State`).
* Python dictionaries coming out of the providers are the record `IngestData`;
  a key that may be absent is an `Option`, and the numeric fields that
  `add_or_update` passes through `int(...)` are a `NumField` (absent, `None`,
  coercible with the coerced value, or not coercible).
* Fallible Python code (`raise ValueError`) is `Except String`.
* The external collaborators (filesystem for `LocalProvider`, network for
  `metadata.fetch_metadata`) are parameters of the functions that use them.
* Python regular-expression search (`re.search`) is embedded per pattern as a
  leftmost scan; every pattern in `providers.py` is a chain of literals,
  ordered alternations of non-prefix-overlapping literals and greedy
  character-class plus-repetitions whose classes are disjoint from the
  character that follows them, so the committed (non-backtracking) scan below
  computes exactly the Python match and capture.  Character classes are the
  ASCII classes written in the patterns.
-/

deriving instance DecidableEq for Except

namespace MediaBrain

-- ============================================================
-- Regular-expression scanning primitives
-- ============================================================

/-- Strip an exact literal from the front of a character list
    (one regex literal atom). -/
def stripPre : List Char → List Char → Option (List Char)
  | [], cs => some cs
  | _ :: _, [] => none
  | p :: ps, c :: cs => if c = p then stripPre ps cs else none

/-- Greedy `class+`: the maximal non-empty run of characters satisfying `p`,
    together with the rest. -/
def cls1 (p : Char → Bool) (cs : List Char) : Option (List Char × List Char) :=
  match cs.takeWhile p with
  | [] => none
  | t => some (t, cs.dropWhile p)

/-- Ordered alternation of literals, as in `(track|album|playlist)`. -/
def altStrip : List String → List Char → Option (String × List Char)
  | [], _ => none
  | a :: as, cs =>
    match stripPre a.data cs with
    | some rest => some (a, rest)
    | none => altStrip as cs

/-- Python `re.search`: try the pattern at every start position, leftmost first. -/
def reSearch {α : Type} (tryAt : List Char → Option α) : List Char → Option α
  | [] => tryAt []
  | c :: cs =>
    match tryAt (c :: cs) with
    | some r => some r
    | none => reSearch tryAt cs

def isLowerAZ (c : Char) : Bool := 'a' ≤ c && c ≤ 'z'

def isAlnumAscii (c : Char) : Bool := c.isAlpha || c.isDigit

/-- Whether `needle` occurs as a contiguous run inside `hay`. -/
def subScan (needle : List Char) : List Char → Bool
  | [] => needle.isEmpty
  | c :: cs => needle.isPrefixOf (c :: cs) || subScan needle cs

/-- Python `needle in hay` on strings. -/
def strContains (hay needle : String) : Bool := subScan needle.data hay.data

/-- Python `str.lower()` (the repository only lowercases ASCII text). -/
def strLower (s : String) : String := String.mk (s.data.map Char.toLower)

-- ============================================================
-- providers.py : data model of an identification result
-- ============================================================

/-- A value destined for one of the `int(...)`-coerced fields of
    `MediaManager.add_or_update`: the dictionary key may be absent, present as
    `None`, present and coercible by `int()` (carrying the coerced value), or
    present and not coercible (so that `int()` raises). -/
inductive NumField where
  | missing : NumField
  | null : NumField
  | num : Int → NumField
  | notCoercible : NumField
deriving DecidableEq

/-- The dictionary produced by `BaseProvider.extract_info` and consumed by
    `MediaManager.add_or_update` (spec: IdentificationResult). -/
structure IngestData where
  title : Option String := none
  type : Option String := none
  source : Option String := none
  provider_id : Option String := none
  has_real_id : Bool := false
  description : Option String := none
  thumbnail_url : Option String := none
  channel : Option String := none
  artist : Option String := none
  album : Option String := none
  is_local_file : Bool := false
  local_path : Option String := none
  open_method : Option String := none
  length_seconds : NumField := .missing
  season : NumField := .missing
  episode : NumField := .missing
deriving DecidableEq

-- ============================================================
-- providers.py : per-service structural regex searches
-- ============================================================

/-- Search `re.search(r"netflix\.com/watch/(\d+)", s)`, returning group 1. -/
def netflixSearch (s : String) : Option String :=
  reSearch (fun cs =>
    match stripPre "netflix.com/watch/".data cs with
    | none => none
    | some cs1 =>
      match cls1 Char.isDigit cs1 with
      | none => none
      | some (t, _) => some (String.mk t)) s.data

/-- Search `re.search(r"youtube\.com/watch\?v=([A-Za-z0-9_-]+)", s)`, group 1. -/
def youtubeSearch (s : String) : Option String :=
  reSearch (fun cs =>
    match stripPre "youtube.com/watch?v=".data cs with
    | none => none
    | some cs1 =>
      match cls1 (fun c => isAlnumAscii c || c = '_' || c = '-') cs1 with
      | none => none
      | some (t, _) => some (String.mk t)) s.data

/-- Search `re.search(r"open\.spotify\.com/(track|album|playlist)/([a-zA-Z0-9]+)", s)`,
    returning (group 1, group 2). -/
def spotifySearch (s : String) : Option (String × String) :=
  reSearch (fun cs =>
    match stripPre "open.spotify.com/".data cs with
    | none => none
    | some cs1 =>
      match altStrip ["track", "album", "playlist"] cs1 with
      | none => none
      | some (ct, cs2) =>
        match stripPre "/".data cs2 with
        | none => none
        | some cs3 =>
          match cls1 isAlnumAscii cs3 with
          | none => none
          | some (t, _) => some (ct, String.mk t)) s.data

/-- Search `re.search(r"disneyplus\.com/video/([a-zA-Z0-9-]+)", s)`, group 1. -/
def disneySearch (s : String) : Option String :=
  reSearch (fun cs =>
    match stripPre "disneyplus.com/video/".data cs with
    | none => none
    | some cs1 =>
      match cls1 (fun c => isAlnumAscii c || c = '-') cs1 with
      | none => none
      | some (t, _) => some (String.mk t)) s.data

/-- Search `re.search(r"primevideo\.com/detail/([a-zA-Z0-9]+)", s)`, group 1. -/
def prime1Search (s : String) : Option String :=
  reSearch (fun cs =>
    match stripPre "primevideo.com/detail/".data cs with
    | none => none
    | some cs1 =>
      match cls1 isAlnumAscii cs1 with
      | none => none
      | some (t, _) => some (String.mk t)) s.data

/-- Search `re.search(r"amazon\.[a-z]+/gp/video/detail/([a-zA-Z0-9]+)", s)`, group 1. -/
def prime2Search (s : String) : Option String :=
  reSearch (fun cs =>
    match stripPre "amazon.".data cs with
    | none => none
    | some cs1 =>
      match cls1 isLowerAZ cs1 with
      | none => none
      | some (_, cs2) =>
        match stripPre "/gp/video/detail/".data cs2 with
        | none => none
        | some cs3 =>
          match cls1 isAlnumAscii cs3 with
          | none => none
          | some (t, _) => some (String.mk t)) s.data

/-- Combined `self.regex.search(s) or self.regex_watch.search(s)` in
    `AmazonPrimeProvider.extract_info`. -/
def primeSearch (s : String) : Option String :=
  match prime1Search s with
  | some r => some r
  | none => prime2Search s

/-- Search `re.search(r"tv\.apple\.com/[a-z]+/(?:movie|show|episode)/[^/]+/([a-z0-9]+)", s)`,
    group 1. -/
def appleSearch (s : String) : Option String :=
  reSearch (fun cs =>
    match stripPre "tv.apple.com/".data cs with
    | none => none
    | some cs1 =>
      match cls1 isLowerAZ cs1 with
      | none => none
      | some (_, cs2) =>
        match stripPre "/".data cs2 with
        | none => none
        | some cs3 =>
          match altStrip ["movie", "show", "episode"] cs3 with
          | none => none
          | some (_, cs4) =>
            match stripPre "/".data cs4 with
            | none => none
            | some cs5 =>
              match cls1 (fun c => c ≠ '/') cs5 with
              | none => none
              | some (_, cs6) =>
                match stripPre "/".data cs6 with
                | none => none
                | some cs7 =>
                  match cls1 (fun c => isLowerAZ c || c.isDigit) cs7 with
                  | none => none
                  | some (t, _) => some (String.mk t)) s.data

/-- Search `re.search(r"twitch\.tv/([a-zA-Z0-9_]+)", s)`, group 1. -/
def twitchSearch (s : String) : Option String :=
  reSearch (fun cs =>
    match stripPre "twitch.tv/".data cs with
    | none => none
    | some cs1 =>
      match cls1 (fun c => isAlnumAscii c || c = '_') cs1 with
      | none => none
      | some (t, _) => some (String.mk t)) s.data

-- ============================================================
-- providers.py : clean_window_title and the fallback results
-- ============================================================

/-- One attempt of the pattern `" und \d+ weitere Seiten"` at the current
    position; on success returns the remaining characters after the match. -/
def tabTry (cs : List Char) : Option (List Char) :=
  match stripPre " und ".data cs with
  | none => none
  | some cs1 =>
    match cls1 Char.isDigit cs1 with
    | none => none
    | some (_, cs2) => stripPre " weitere Seiten".data cs2

/-- Substitution `re.sub(r" und \d+ weitere Seiten", "", title)`: left-to-right
    non-overlapping removal.  Fuel-indexed; every step consumes at least one
    character, so fuel equal to the length of the list computes the full
    substitution. -/
def remTabsF : Nat → List Char → List Char
  | 0, cs => cs
  | _ + 1, [] => []
  | f + 1, c :: cs =>
    match tabTry (c :: cs) with
    | some rest => remTabsF f rest
    | none => c :: remTabsF f cs

def remTabs (s : String) : String := String.mk (remTabsF s.data.length s.data)

/-- The characters before the first occurrence of `needle`
    (`title.split(needle)[0]`; all call sites pass a non-empty separator). -/
def takeUntilSep (needle : List Char) : List Char → List Char
  | [] => []
  | c :: cs => if needle.isPrefixOf (c :: cs) then [] else c :: takeUntilSep needle cs

def splitHead (t phrase : String) : String := String.mk (takeUntilSep phrase.data t.data)

/-- Python `str.strip()` (the repository only ever strips ASCII whitespace). -/
def pyStrip (s : String) : String :=
  String.mk (((s.data.dropWhile Char.isWhitespace).reverse.dropWhile Char.isWhitespace).reverse)

def browserSuffixes : List String :=
  [" - Persönlich", " - Microsoft​ Edge", " - Google Chrome", " - Mozilla Firefox"]

/-- Function `clean_window_title` from providers.py: `none` on the app's own window,
    otherwise the cleaned (possibly empty) title. -/
def cleanWindowTitle (title : String) (removePhrases : List String) : Option String :=
  if strContains title "MediaBrain" then none
  else
    let t1 := remTabs title
    let t2 := removePhrases.foldl (fun t p => if strContains t p then splitHead t p else t) t1
    let t3 := browserSuffixes.foldl (fun t b => splitHead t b) t2
    some (pyStrip t3)

/-- Method `BaseProvider._build_fallback_result`. -/
def buildFallback (s : String) (phrases : List String) (dtype : String)
    (ovNames : List String) (provName provSource : String) : Option IngestData :=
  match cleanWindowTitle s phrases with
  | none => none
  | some t =>
    if t = "" then none
    else
      let t2 := if ovNames.contains t then provName ++ " Übersicht" else t
      some { title := some t2, type := some dtype, source := some provSource,
             provider_id := some t2, description := some "Automatisch erkannt (Browser)",
             has_real_id := false }

-- ============================================================
-- providers.py : matches / extract_info per provider
-- ============================================================

def netflixMatches (s : String) : Bool :=
  (netflixSearch s).isSome || (strContains s "Netflix" && !strContains s "Netflix Party")

def netflixExtract (s : String) : Option IngestData :=
  match netflixSearch s with
  | some pid =>
    some { title := some ("Netflix Inhalt " ++ pid), type := some "movie",
           source := some "netflix", provider_id := some pid, has_real_id := true }
  | none => buildFallback s [" - Netflix", " | Netflix"] "movie" ["Netflix"] "Netflix" "netflix"

def youtubeMatches (s : String) : Bool :=
  (youtubeSearch s).isSome || strContains s "YouTube"

def youtubeExtract (s : String) : Option IngestData :=
  match youtubeSearch s with
  | some pid =>
    some { title := some ("YouTube Video " ++ pid), type := some "clip",
           source := some "youtube", provider_id := some pid,
           thumbnail_url := some ("https://img.youtube.com/vi/" ++ pid ++ "/0.jpg"),
           has_real_id := true }
  | none => buildFallback s [" - YouTube"] "clip" [] "YouTube" "youtube"

def spotifyMatches (s : String) : Bool :=
  strContains s "Spotify" || (spotifySearch s).isSome

/-- Python `str.title()` restricted to the three words the Spotify alternation can
    capture. -/
def pyTitleWord (w : String) : String :=
  if w = "track" then "Track"
  else if w = "album" then "Album"
  else if w = "playlist" then "Playlist"
  else w

def spotifyExtract (s : String) : Option IngestData :=
  match spotifySearch s with
  | some (ct, cid) =>
    some { title := some ("Spotify " ++ pyTitleWord ct ++ " " ++ cid.take 8),
           type := some "music", source := some "spotify", provider_id := some cid,
           has_real_id := true }
  | none => buildFallback s [" - Spotify", " | Spotify"] "music" [] "Spotify" "spotify"

def disneyMatches (s : String) : Bool :=
  (disneySearch s).isSome || strContains s "Disney+" || strContains (strLower s) "disneyplus"

def disneyExtract (s : String) : Option IngestData :=
  match disneySearch s with
  | some vid =>
    some { title := some ("Disney+ Video " ++ vid.take 12), type := some "movie",
           source := some "disney", provider_id := some vid, has_real_id := true }
  | none =>
    buildFallback s [" - Disney+", " | Disney+", "Disney+ |"] "movie"
      ["Disney+", "Disney Plus"] "Disney+" "disney"

def primeMatches (s : String) : Bool :=
  (prime1Search s).isSome || (prime2Search s).isSome ||
    strContains s "Prime Video" || strContains (strLower s) "primevideo"

def primeExtract (s : String) : Option IngestData :=
  match primeSearch s with
  | some vid =>
    some { title := some ("Prime Video " ++ vid), type := some "movie",
           source := some "prime", provider_id := some vid, has_real_id := true }
  | none =>
    match cleanWindowTitle s [" - Prime Video", " | Prime Video", "Prime Video -"] with
    | none => none
    | some t =>
      if t = "" then none
      else
        let t2 := if t = "Prime Video" || t = "Amazon Prime Video" then "Prime Video Übersicht" else t
        some { title := some t2, type := some "movie", source := some "prime",
               provider_id := some t2, description := some "Automatisch erkannt (Browser)",
               has_real_id := false }

def appleMatches (s : String) : Bool :=
  (appleSearch s).isSome || strContains s "Apple TV" || strContains (strLower s) "tv.apple.com"

def appleExtract (s : String) : Option IngestData :=
  match appleSearch s with
  | some cid =>
    some { title := some ("Apple TV+ " ++ cid), type := some "movie",
           source := some "appletv", provider_id := some cid, has_real_id := true }
  | none =>
    match cleanWindowTitle s [" - Apple TV+", " | Apple TV+", "Apple TV+ -"] with
    | none => none
    | some t =>
      if t = "" then none
      else
        let t2 := if t = "Apple TV+" || t = "Apple TV" then "Apple TV+ Übersicht" else t
        some { title := some t2, type := some "movie", source := some "appletv",
               provider_id := some t2, description := some "Automatisch erkannt (Browser)",
               has_real_id := false }

def twitchMatches (s : String) : Bool :=
  (twitchSearch s).isSome || strContains s "Twitch"

def twitchFallback (s : String) : Option IngestData :=
  match cleanWindowTitle s [" - Twitch"] with
  | none => none
  | some t =>
    if t = "" then none
    else
      some { title := some t, type := some "clip", source := some "twitch",
             provider_id := some t, description := some "Automatisch erkannt (Browser)",
             has_real_id := false }

def twitchExtract (s : String) : Option IngestData :=
  match twitchSearch s with
  | some ch =>
    if (["directory", "settings", "videos"].contains (strLower ch)) then twitchFallback s
    else
      some { title := some ("Twitch: " ++ ch), type := some "clip", source := some "twitch",
             provider_id := some ch, channel := some ch, has_real_id := true }
  | none => twitchFallback s

-- ============================================================
-- providers.py : ProviderRegistry.identify
-- ============================================================

/-- One step of the registry loop: a provider contributes a result only when
    `matches` accepted the string and `extract_info` returned a truthy dict. -/
def provContrib (m : String → Bool) (e : String → Option IngestData) (s : String) :
    Option IngestData :=
  if m s then e s else none

/-- Method `ProviderRegistry.identify`, in registry order.  `LocalProvider` touches the
    filesystem (`Path(s).exists()`, `Path(s).resolve()`), so its `matches` and
    `extract_info` are parameters. -/
def identify (localMatches : String → Bool) (localExtract : String → Option IngestData)
    (s : String) : Option IngestData :=
  [ provContrib netflixMatches netflixExtract s,
    provContrib disneyMatches disneyExtract s,
    provContrib primeMatches primeExtract s,
    provContrib appleMatches appleExtract s,
    provContrib youtubeMatches youtubeExtract s,
    provContrib twitchMatches twitchExtract s,
    provContrib spotifyMatches spotifyExtract s,
    provContrib localMatches localExtract s ].findSome? id

/-- The services that own a structural identifier regular expression. -/
inductive Svc where
  | netflix | disney | prime | appletv | youtube | twitch | spotify
deriving DecidableEq

/-- The structural-regex capture of each service (for Amazon Prime, the two
    patterns in the order `extract_info` consults them; for Spotify, capture
    group 2, which becomes the `provider_id`). -/
def structSearch : Svc → String → Option String
  | .netflix, s => netflixSearch s
  | .disney, s => disneySearch s
  | .prime, s => primeSearch s
  | .appletv, s => appleSearch s
  | .youtube, s => youtubeSearch s
  | .twitch, s => twitchSearch s
  | .spotify, s => (spotifySearch s).map Prod.snd

def svcMatches : Svc → String → Bool
  | .netflix, s => netflixMatches s
  | .disney, s => disneyMatches s
  | .prime, s => primeMatches s
  | .appletv, s => appleMatches s
  | .youtube, s => youtubeMatches s
  | .twitch, s => twitchMatches s
  | .spotify, s => spotifyMatches s

/-- The providers evaluated before a given service in registry order. -/
def svcEarlier : Svc → List Svc
  | .netflix => []
  | .disney => [.netflix]
  | .prime => [.netflix, .disney]
  | .appletv => [.netflix, .disney, .prime]
  | .youtube => [.netflix, .disney, .prime, .appletv]
  | .twitch => [.netflix, .disney, .prime, .appletv, .youtube]
  | .spotify => [.netflix, .disney, .prime, .appletv, .youtube, .twitch]

-- ============================================================
-- core.py : Database / MediaItem / MediaManager / BlacklistManager
-- ============================================================

/-- One row of the `media_items` table (class `MediaItem`). -/
structure MediaItem where
  id : Nat
  title : String
  type : String
  source : String
  provider_id : String
  length_seconds : Option Int
  created_at : Int
  last_opened_at : Option Int
  open_method : Option String
  is_favorite : Bool
  is_local_file : Bool
  local_path : Option String
  description : Option String
  thumbnail_url : Option String
  season : Option Int
  episode : Option Int
  artist : Option String
  album : Option String
  channel : Option String
  blacklist_flag : Int
  blacklisted_at : Option Int
  procedure_code : Int
deriving DecidableEq

/-- The database: the `media_items` rows in insertion (rowid) order plus the
    AUTOINCREMENT counter. -/
structure State where
  nextId : Nat
  rows : List MediaItem
deriving DecidableEq

/-- Method `MediaManager.get_by_provider`: first row matching `provider_id` and
    `source`. -/
def getByProvider (s : State) (pid src : String) : Option MediaItem :=
  s.rows.find? (fun r => r.provider_id == pid && r.source == src)

def allowedTypes : List String :=
  ["movie", "series", "music", "clip", "podcast", "audiobook", "document", "file"]

/-- One iteration of the required-fields loop in `add_or_update`: missing key,
    then falsy (empty) value. -/
def reqField (name : String) (v : Option String) : Except String String :=
  match v with
  | none => .error ("Required field missing: " ++ name)
  | some x => if x = "" then .error ("Required field cannot be empty: " ++ name) else .ok x

/-- The `int(...)`/negativity check `add_or_update` applies to
    `length_seconds`, `season` and `episode`. -/
def coerceNum (name : String) (f : NumField) : Except String (Option Int) :=
  match f with
  | .missing => .ok none
  | .null => .ok none
  | .notCoercible => .error (name ++ " must be numeric")
  | .num n => if n < 0 then .error (name ++ " cannot be negative") else .ok (some n)

/-- The title-length clamp in `add_or_update` (500 → 497 chars + `"..."`). -/
def truncTitle (t : Option String) : Option String :=
  match t with
  | none => none
  | some x => if x ≠ "" && x.length > 500 then some (x.take 497 ++ "...") else some x

/-- The cleaned input after the `=== INPUT VALIDATION ===` block of
    `add_or_update` succeeded. -/
structure CleanData where
  type : String
  source : String
  provider_id : String
  title : Option String
  length_seconds : Option Int
  season : Option Int
  episode : Option Int
  open_method : Option String
  has_real_id : Bool
  is_local_file : Bool
  local_path : Option String
  description : Option String
  thumbnail_url : Option String
  artist : Option String
  album : Option String
  channel : Option String
deriving DecidableEq

/-- The `=== INPUT VALIDATION ===` block of `MediaManager.add_or_update`, in
    source order: required fields, allowed types, injection characters in
    `source`, title clamp, then the three numeric coercions. -/
def validate (d : IngestData) : Except String CleanData :=
  match reqField "type" d.type with
  | .error e => .error e
  | .ok ty =>
    match reqField "source" d.source with
    | .error e => .error e
    | .ok src =>
      match reqField "provider_id" d.provider_id with
      | .error e => .error e
      | .ok pid =>
        if ty ∉ allowedTypes then .error ("Invalid type: " ++ ty)
        else if strContains src "\x27" || strContains src "\"" || strContains src ";"
            || strContains src "\x2d\x2d" then
          .error "Source contains invalid characters"
        else
          match coerceNum "length_seconds" d.length_seconds with
          | .error e => .error e
          | .ok ls =>
            match coerceNum "season" d.season with
            | .error e => .error e
            | .ok se =>
              match coerceNum "episode" d.episode with
              | .error e => .error e
              | .ok ep =>
                .ok { type := ty, source := src, provider_id := pid,
                      title := truncTitle d.title, length_seconds := ls, season := se,
                      episode := ep, open_method := d.open_method,
                      has_real_id := d.has_real_id, is_local_file := d.is_local_file,
                      local_path := d.local_path, description := d.description,
                      thumbnail_url := d.thumbnail_url, artist := d.artist,
                      album := d.album, channel := d.channel }

/-- The partial fields `metadata.fetch_metadata` may return. -/
structure Meta where
  title : Option String := none
  description : Option String := none
  thumbnail_url : Option String := none
deriving DecidableEq

/-- Python `if meta.get(key): data[key] = meta[key]` (truthiness: non-empty string). -/
def metaOverride (old new : Option String) : Option String :=
  match new with
  | some t => if t = "" then old else some t
  | none => old

/-- The per-source URL `add_or_update` builds before fetching metadata. -/
def buildUrl (src pid : String) : Option String :=
  if src = "youtube" then some ("https://www.youtube.com/watch?v=" ++ pid)
  else if src = "netflix" then some ("https://www.netflix.com/watch/" ++ pid)
  else if src = "spotify" then some ("https://open.spotify.com/track/" ++ pid)
  else none

/-- The metadata-enrichment step on the insert path of `add_or_update`.
    `hasMeta` is `HAS_METADATA`, `autoFetch` the `auto_fetch_metadata` setting;
    `fetchMeta` is the external collaborator (`none` covers both a falsy result
    and a raised, caught exception). -/
def enrichData (hasMeta autoFetch : Bool) (fetchMeta : String → Option Meta)
    (origin : String) (cd : CleanData) : CleanData :=
  if hasMeta && autoFetch && cd.has_real_id && origin == "external" then
    match buildUrl cd.source cd.provider_id with
    | none => cd
    | some url =>
      match fetchMeta url with
      | none => cd
      | some m =>
        { cd with title := metaOverride cd.title m.title,
                  description := metaOverride cd.description m.description,
                  thumbnail_url := metaOverride cd.thumbnail_url m.thumbnail_url }
  else cd

/-- The row the INSERT statement of `add_or_update` produces (columns absent
    from the statement take their schema defaults). -/
def mkRow (rid : Nat) (now : Int) (cd : CleanData) : MediaItem :=
  { id := rid, title := cd.title.getD "Unbekannt", type := cd.type, source := cd.source,
    provider_id := cd.provider_id, length_seconds := cd.length_seconds, created_at := now,
    last_opened_at := some now, open_method := some (cd.open_method.getD "auto"),
    is_favorite := false, is_local_file := cd.is_local_file, local_path := cd.local_path,
    description := cd.description, thumbnail_url := cd.thumbnail_url, season := cd.season,
    episode := cd.episode, artist := cd.artist, album := cd.album, channel := cd.channel,
    blacklist_flag := 0, blacklisted_at := none, procedure_code := 0 }

/-- SQL `COALESCE(?, open_method)`. -/
def coalesce (a b : Option String) : Option String :=
  match a with
  | some m => some m
  | none => b

/-- The UPDATE branch of `add_or_update`: `last_opened_at = now`,
    `open_method = COALESCE(incoming, open_method)` on the row with id `exId`. -/
def updateOpened (now : Int) (om : Option String) (exId : Nat) (s : State) : State :=
  { s with rows := s.rows.map (fun r =>
      if r.id = exId then
        { r with last_opened_at := some now, open_method := coalesce om r.open_method }
      else r) }

/-- The INSERT branch of `add_or_update`. -/
def insertRow (now : Int) (cd : CleanData) (s : State) : State :=
  { nextId := s.nextId + 1, rows := s.rows ++ [mkRow s.nextId now cd] }

/-- Method `MediaManager.add_or_update`. -/
def addOrUpdate (hasMeta autoFetch : Bool) (fetchMeta : String → Option Meta)
    (now : Int) (d : IngestData) (origin : String) (s : State) : Except String State :=
  match validate d with
  | .error e => .error e
  | .ok cd =>
    match getByProvider s cd.provider_id cd.source with
    | some existing =>
      if existing.blacklist_flag = 1 && origin == "external" then .ok s
      else .ok (updateOpened now cd.open_method existing.id s)
    | none => .ok (insertRow now (enrichData hasMeta autoFetch fetchMeta origin cd) s)

/-- Method `BlacklistManager._expiry_date` (code 6 and any other code: no expiry). -/
def expiryDate (start : Int) (code : Int) : Option Int :=
  if code = 1 then some (start + 86400)
  else if code = 2 then some (start + 604800)
  else if code = 3 then some (start + 2592000)
  else if code = 4 then some (start + 7776000)
  else if code = 5 then some (start + 31536000)
  else none

/-- The per-row body of `BlacklistManager.refresh_blacklist`: rows with
    `blacklist_flag = 1`, a set `blacklisted_at` and an expiry in the past are
    reset; every other row is untouched. -/
def sweepRow (now : Int) (r : MediaItem) : MediaItem :=
  if r.blacklist_flag = 1 then
    match r.blacklisted_at with
    | none => r
    | some t =>
      match expiryDate t r.procedure_code with
      | none => r
      | some e =>
        if now > e then { r with blacklist_flag := 0, procedure_code := 0, blacklisted_at := none }
        else r
  else r

/-- Method `BlacklistManager.refresh_blacklist` over the whole table (row ids are
    unique, so the SELECT-then-UPDATE-by-id loop is a map). -/
def refreshBlacklist (now : Int) (rows : List MediaItem) : List MediaItem :=
  rows.map (sweepRow now)

/-- Method `BlacklistManager.set_blacklist` (the Python default for `procedure_code`
    is 6; callers may pass any integer). -/
def setBlacklist (now : Int) (itemId : Nat) (enabled : Bool) (code : Int)
    (rows : List MediaItem) : List MediaItem :=
  if enabled then
    rows.map (fun r =>
      if r.id = itemId then
        { r with blacklist_flag := 1, blacklisted_at := some now, procedure_code := code }
      else r)
  else
    rows.map (fun r =>
      if r.id = itemId then
        { r with blacklist_flag := 0, blacklisted_at := none, procedure_code := 0 }
      else r)

-- ============================================================
-- background.py / MediaBrain.py : dispatcher, window watcher, ingestion loop
-- ============================================================

/-- A queue entry: the identified dict with the `origin` key the dispatcher
    stamped on it (`info["origin"] = origin`). -/
structure Event where
  data : IngestData
  origin : String
deriving DecidableEq

/-- Method `EventDispatcher.dispatch`: identify, stamp the origin, enqueue (an
    unidentified string is dropped). -/
def dispatch (lm : String → Bool) (le : String → Option IngestData)
    (sourceString origin : String) : Option Event :=
  match identify lm le sourceString with
  | none => none
  | some info => some { data := info, origin := origin }

/-- The origin string `WindowWatcher.run` passes to `dispatch`. -/
def windowWatcherOrigin : String := "window_watcher"

/-- The origin string `FileIndexer._process_file` passes to `dispatch`. -/
def fileIndexerOrigin : String := "file_indexer"

/-- Method `EventProcessor.process_event`: ingest the event with the origin stamped on
    it (the dispatcher always sets one). -/
def processEvent (hm af : Bool) (fm : String → Option Meta) (now : Int)
    (e : Event) (s : State) : Except String State :=
  addOrUpdate hm af fm now e.data e.origin s

/-- The `while not queue.empty() and processed_count < 50` loop of
    `process_queue` in `AppController._start_event_loop`: per-item try/except,
    `has_updates` set on success, error message logged on failure.
    Returns (state, remaining queue, has_updates, log). -/
def drainLoop (hm af : Bool) (fm : String → Option Meta) (now : Int) :
    List Event → Nat → State → Bool → List String → State × List Event × Bool × List String
  | [], _, s, hu, log => (s, [], hu, log)
  | e :: rest, cnt, s, hu, log =>
    if cnt < 50 then
      match processEvent hm af fm now e s with
      | .ok s' => drainLoop hm af fm now rest (cnt + 1) s' true log
      | .error m => drainLoop hm af fm now rest (cnt + 1) s hu (log ++ [m])
    else (s, e :: rest, hu, log)

/-- The outcome of one tick of `process_queue`. -/
structure TickResult where
  state : State
  queue : List Event
  refreshCount : Nat
  log : List String
deriving DecidableEq

/-- One tick of `process_queue`: drain up to 50 items, then fire
    `refresh_all_views` once iff `has_updates`. -/
def processQueueTick (hm af : Bool) (fm : String → Option Meta) (now : Int)
    (q : List Event) (s : State) : TickResult :=
  match drainLoop hm af fm now q 0 s false [] with
  | (s', q', hu, log) =>
    { state := s', queue := q', refreshCount := if hu then 1 else 0, log := log }

/-- The effect of one queue item on the state: applied on success, dropped
    (state unchanged) when ingestion raises. -/
def processOne (hm af : Bool) (fm : String → Option Meta) (now : Int)
    (s : State) (e : Event) : State :=
  match processEvent hm af fm now e s with
  | .ok s' => s'
  | .error _ => s

/-- The body of `WindowWatcher.run` for one observation: dispatch iff the title
    is truthy and differs from `self.last_title`, updating `last_title` exactly
    then. -/
def watcherStep (lastTitle title : String) : String × Bool :=
  if title ≠ "" && title ≠ lastTitle then (title, true) else (lastTitle, false)

/-- The dispatch decisions of the window poller over a sequence of observed
    titles, starting from a given `last_title` (`""` at thread start). -/
def watcherFlags (lastTitle : String) : List String → List Bool
  | [] => []
  | t :: ts => (watcherStep lastTitle t).2 :: watcherFlags (watcherStep lastTitle t).1 ts

/-- The most recent non-empty element of a list, with a default for "none yet"
    (claim-side helper for the window-poller dedup property). -/
def lastNonEmpty (init : String) (l : List String) : String :=
  l.foldl (fun acc t => if t = "" then acc else t) init

/-- The three-way suppression invariant of a row (spec §3):
    `suppression_code == 0 ⇔ blacklisted == false ⇔ blacklisted_at == null`. -/
def RecInv (r : MediaItem) : Prop :=
  (r.procedure_code = 0 ↔ r.blacklist_flag = 0) ∧ (r.blacklist_flag = 0 ↔ r.blacklisted_at = none)

/-- The suppression invariant over a whole table. -/
def StateInv (rows : List MediaItem) : Prop := ∀ r ∈ rows, RecInv r

instance (r : MediaItem) : Decidable (RecInv r) := by unfold RecInv; infer_instance

instance (rows : List MediaItem) : Decidable (StateInv rows) := by
  unfold StateInv; infer_instance

/-- A numeric field that is present but not coercible to a non-negative
    integer (the rejection condition of the claim and of `add_or_update`). -/
def badNum (f : NumField) : Prop := f = .notCoercible ∨ ∃ n, f = .num n ∧ n < 0

def c10Row : MediaItem :=
  { id := 1, title := "Old", type := "clip", source := "youtube", provider_id := "vid1",
    length_seconds := none, created_at := 10, last_opened_at := some 10,
    open_method := some "auto", is_favorite := false, is_local_file := false,
    local_path := none, description := none, thumbnail_url := none, season := none,
    episode := none, artist := none, album := none, channel := none,
    blacklist_flag := 0, blacklisted_at := none, procedure_code := 0 }

/-- A later, richer identification for the same fingerprint. -/
def c10Data : IngestData :=
  { title := some "Richer Title", type := some "clip", source := some "youtube",
    provider_id := some "vid1", has_real_id := true,
    thumbnail_url := some "https://img.youtube.com/vi/vid1/0.jpg" }

def c10Clean : CleanData :=
  { type := "clip", source := "youtube", provider_id := "vid1",
    title := some "Richer Title", length_seconds := none, season := none, episode := none,
    open_method := none, has_real_id := true, is_local_file := false, local_path := none,
    description := none, thumbnail_url := some "https://img.youtube.com/vi/vid1/0.jpg",
    artist := none, album := none, channel := none }

def c1Data : IngestData :=
  { title := some "Netflix Inhalt 81040344", type := some "movie", source := some "netflix",
    provider_id := some "81040344", has_real_id := true }

def c1Clean : CleanData :=
  { type := "movie", source := "netflix", provider_id := "81040344",
    title := some "Netflix Inhalt 81040344", length_seconds := none, season := none,
    episode := none, open_method := none, has_real_id := true, is_local_file := false,
    local_path := none, description := none, thumbnail_url := none, artist := none,
    album := none, channel := none }

def c1S1 : State := insertRow 10 (enrichData false true (fun _ => none) "external" c1Clean) ⟨1, []⟩

def c4Sample : MediaItem :=
  { id := 1, title := "t", type := "movie", source := "netflix", provider_id := "p",
    length_seconds := none, created_at := 0, last_opened_at := some 0, open_method := some "auto",
    is_favorite := false, is_local_file := false, local_path := none, description := none,
    thumbnail_url := none, season := none, episode := none, artist := none, album := none,
    channel := none, blacklist_flag := 1, blacklisted_at := some 100, procedure_code := 2 }

def c6Row : MediaItem :=
  { id := 1, title := "t", type := "movie", source := "netflix", provider_id := "p",
    length_seconds := none, created_at := 0, last_opened_at := some 0, open_method := some "auto",
    is_favorite := false, is_local_file := false, local_path := none, description := none,
    thumbnail_url := none, season := none, episode := none, artist := none, album := none,
    channel := none, blacklist_flag := 0, blacklisted_at := none, procedure_code := 0 }

/-- Whether ingesting this event would validate (success of `add_or_update`
    does not depend on the state, only errors do not occur post-validation). -/
def validateOkB (e : Event) : Bool :=
  match validate e.data with
  | .ok _ => true
  | .error _ => false

/-- The per-event validation error, if any (the message the loop logs). -/
def validateErr (e : Event) : Option String :=
  match validate e.data with
  | .error m => some m
  | .ok _ => none

def mkFileEvent (i : Nat) : Event :=
  { data := { title := some ("file" ++ toString i), type := some "movie",
              source := some "local",
              provider_id := some ("/media/file" ++ toString i ++ ".mp4"),
              has_real_id := true, is_local_file := true,
              local_path := some ("/media/file" ++ toString i ++ ".mp4") },
    origin := "file_indexer" }

/-- A batch of 50 distinct new-file signals. -/
def c5Batch : List Event := (List.range 50).map mkFileEvent

/-- A catalogued Twitch stream that the user has suppressed indefinitely. -/
def c2BlkRow : MediaItem :=
  { id := 1, title := "Twitch: streamer", type := "clip", source := "twitch",
    provider_id := "streamer", length_seconds := none, created_at := 100,
    last_opened_at := some 100, open_method := some "auto", is_favorite := false,
    is_local_file := false, local_path := none, description := none, thumbnail_url := none,
    season := none, episode := none, artist := none, album := none,
    channel := some "streamer", blacklist_flag := 1, blacklisted_at := some 100,
    procedure_code := 6 }

def c2State : State := ⟨2, [c2BlkRow]⟩

/-- The dict the registry produces for the window title `"twitch.tv/streamer"`. -/
def c2Data : IngestData :=
  { title := some "Twitch: streamer", type := some "clip", source := some "twitch",
    provider_id := some "streamer", channel := some "streamer", has_real_id := true }

-- ============================================================
-- Shared helper lemmas
-- ============================================================

theorem sweepRow_cases (now : Int) (r : MediaItem) :
    sweepRow now r = r ∨
    sweepRow now r = { r with blacklist_flag := 0, procedure_code := 0, blacklisted_at := none } := by
  unfold sweepRow
  split
  · split
    · exact Or.inl rfl
    · split
      · exact Or.inl rfl
      · split
        · exact Or.inr rfl
        · exact Or.inl rfl
  · exact Or.inl rfl

theorem coerceNum_err {name : String} {f : NumField} {e : String}
    (h : coerceNum name f = .error e) : badNum f := by
  cases f with
  | missing => simp [coerceNum] at h
  | null => simp [coerceNum] at h
  | notCoercible => exact Or.inl rfl
  | num n =>
    simp only [coerceNum] at h
    split at h
    · exact Or.inr ⟨n, rfl, by assumption⟩
    · exact Except.noConfusion h

theorem coerceNum_ok_not_bad {name : String} {f : NumField} {v : Option Int}
    (h : coerceNum name f = .ok v) : ¬ badNum f := by
  intro hb
  rcases hb with rfl | ⟨n, rfl, hn⟩
  · simp [coerceNum] at h
  · rw [coerceNum, if_pos hn] at h
    exact Except.noConfusion h

theorem reqField_ok {n : String} {v : Option String} {x : String}
    (h : reqField n v = .ok x) : v = some x ∧ x ≠ "" := by
  cases v with
  | none => simp [reqField] at h
  | some y =>
    simp only [reqField] at h
    split at h
    · exact Except.noConfusion h
    · rw [Except.ok.injEq] at h
      subst h
      exact ⟨rfl, by assumption⟩

/-- A successful validation keeps `type`, `source`, `provider_id` and
    `open_method` of the incoming dict. -/
theorem validate_ok_shape {d : IngestData} {cd : CleanData} (h : validate d = .ok cd) :
    d.type = some cd.type ∧ d.source = some cd.source ∧ d.provider_id = some cd.provider_id
    ∧ cd.open_method = d.open_method := by
  unfold validate at h
  rcases h1 : reqField "type" d.type with e | ty
  · simp only [h1] at h
    exact Except.noConfusion h
  · simp only [h1] at h
    rcases h2 : reqField "source" d.source with e | src
    · simp only [h2] at h
      exact Except.noConfusion h
    · simp only [h2] at h
      rcases h3 : reqField "provider_id" d.provider_id with e | pid
      · simp only [h3] at h
        exact Except.noConfusion h
      · simp only [h3] at h
        split at h
        · exact Except.noConfusion h
        · split at h
          · exact Except.noConfusion h
          · rcases h4 : coerceNum "length_seconds" d.length_seconds with e | ls
            · simp only [h4] at h
              exact Except.noConfusion h
            · simp only [h4] at h
              rcases h5 : coerceNum "season" d.season with e | se
              · simp only [h5] at h
                exact Except.noConfusion h
              · simp only [h5] at h
                rcases h6 : coerceNum "episode" d.episode with e | ep
                · simp only [h6] at h
                  exact Except.noConfusion h
                · simp only [h6, Except.ok.injEq] at h
                  subst h
                  exact ⟨(reqField_ok h1).1, (reqField_ok h2).1, (reqField_ok h3).1, rfl⟩

/-- Method `add_or_update` propagates exactly the validation errors: every branch
    after validation returns normally. -/
theorem addOrUpdate_error_iff (hm af : Bool) (fm : String → Option Meta) (now : Int)
    (d : IngestData) (origin : String) (s : State) (m : String) :
    addOrUpdate hm af fm now d origin s = .error m ↔ validate d = .error m := by
  rcases hv : validate d with e | cd
  · simp [addOrUpdate, hv]
  · simp only [addOrUpdate, hv]
    rcases hg : getByProvider s cd.provider_id cd.source with _ | ex
    · simp [hg]
    · simp only [hg]
      split <;> simp

-- ============================================================
-- Theorems for the claims
-- ============================================================

theorem find?_append_of_none {α : Type} (p : α → Bool) (l1 l2 : List α)
    (h : List.find? p l1 = none) : List.find? p (l1 ++ l2) = List.find? p l2 := by
  induction l1 with
  | nil => rfl
  | cons a l ih =>
    rw [List.cons_append]
    cases hp : p a
    · simp only [List.find?, hp] at h ⊢
      exact ih h
    · simp only [List.find?, hp] at h
      exact Option.noConfusion h

/-- Enrichment only ever touches `title`, `description` and `thumbnail_url`. -/
theorem enrich_preserves (hm af : Bool) (fm : String → Option Meta) (origin : String)
    (cd : CleanData) :
    (enrichData hm af fm origin cd).provider_id = cd.provider_id
    ∧ (enrichData hm af fm origin cd).source = cd.source
    ∧ (enrichData hm af fm origin cd).open_method = cd.open_method := by
  unfold enrichData
  split
  · split
    · exact ⟨rfl, rfl, rfl⟩
    · split
      · exact ⟨rfl, rfl, rfl⟩
      · exact ⟨rfl, rfl, rfl⟩
  · exact ⟨rfl, rfl, rfl⟩

/-- C3: ingestion raises a validation error (persisting nothing — the embedded
    operation returns no successor state on error) exactly when `media_type`,
    `source_id` or `provider_id` is missing or empty, `media_type` is outside
    the fixed allowed set, `source_id` contains a single quote, double quote,
    semicolon or double-dash, or `length_seconds` / `season` / `episode` is
    present and not coercible to a non-negative integer. -/
theorem ingest_validation_error_iff (hm af : Bool) (fm : String → Option Meta) (now : Int)
    (d : IngestData) (origin : String) (s : State) :
    (∃ e, addOrUpdate hm af fm now d origin s = .error e) ↔
      (d.type = none ∨ d.type = some ""
        ∨ d.source = none ∨ d.source = some ""
        ∨ d.provider_id = none ∨ d.provider_id = some ""
        ∨ (∃ ty, d.type = some ty ∧ ty ∉ allowedTypes)
        ∨ (∃ src, d.source = some src ∧
            (strContains src "\x27" = true ∨ strContains src "\"" = true
              ∨ strContains src ";" = true ∨ strContains src "\x2d\x2d" = true))
        ∨ badNum d.length_seconds ∨ badNum d.season ∨ badNum d.episode) := by
  have herr : (∃ e, addOrUpdate hm af fm now d origin s = .error e)
      ↔ (∃ e, validate d = .error e) := by
    constructor
    · rintro ⟨e, he⟩
      exact ⟨e, (addOrUpdate_error_iff hm af fm now d origin s e).mp he⟩
    · rintro ⟨e, he⟩
      exact ⟨e, (addOrUpdate_error_iff hm af fm now d origin s e).mpr he⟩
  rw [herr]
  rcases ht : d.type with _ | ty
  · simp [validate, reqField, ht]
  · by_cases hty : ty = ""
    · subst hty
      simp [validate, reqField, ht]
    · rcases hs : d.source with _ | src
      · simp [validate, reqField, ht, hs, hty]
      · by_cases hsrc : src = ""
        · subst hsrc
          simp [validate, reqField, ht, hs, hty]
        · rcases hp : d.provider_id with _ | pid
          · simp [validate, reqField, ht, hs, hp, hty, hsrc]
          · by_cases hpid : pid = ""
            · subst hpid
              simp [validate, reqField, ht, hs, hp, hty, hsrc]
            · by_cases hA : ty ∈ allowedTypes
              · by_cases hC : (strContains src "\x27" || strContains src "\"" || strContains src ";"
                    || strContains src "\x2d\x2d") = true
                · apply iff_of_true
                  · exact ⟨"Source contains invalid characters", by
                      simp [validate, reqField, ht, hs, hp, hty, hsrc, hpid, hA, hC]⟩
                  · simp only [Bool.or_eq_true] at hC
                    refine Or.inr (Or.inr (Or.inr (Or.inr (Or.inr (Or.inr
                      (Or.inr (Or.inl ⟨src, rfl, ?_⟩)))))))
                    tauto
                · have hC' : strContains src "\x27" = false ∧ strContains src "\"" = false
                      ∧ strContains src ";" = false ∧ strContains src "\x2d\x2d" = false := by
                    simp only [Bool.or_eq_true, not_or, Bool.not_eq_true] at hC
                    tauto
                  rcases h1 : coerceNum "length_seconds" d.length_seconds with e1 | v1
                  · apply iff_of_true
                    · exact ⟨e1, by
                        simp [validate, reqField, ht, hs, hp, hty, hsrc, hpid, hA, hC, h1]⟩
                    · exact Or.inr (Or.inr (Or.inr (Or.inr (Or.inr (Or.inr (Or.inr
                        (Or.inr (Or.inl (coerceNum_err h1)))))))))
                  · rcases h2 : coerceNum "season" d.season with e2 | v2
                    · apply iff_of_true
                      · exact ⟨e2, by
                          simp [validate, reqField, ht, hs, hp, hty, hsrc, hpid, hA, hC, h1, h2]⟩
                      · exact Or.inr (Or.inr (Or.inr (Or.inr (Or.inr (Or.inr (Or.inr
                          (Or.inr (Or.inr (Or.inl (coerceNum_err h2))))))))))
                    · rcases h3 : coerceNum "episode" d.episode with e3 | v3
                      · apply iff_of_true
                        · exact ⟨e3, by
                            simp [validate, reqField, ht, hs, hp, hty, hsrc, hpid, hA, hC,
                              h1, h2, h3]⟩
                        · exact Or.inr (Or.inr (Or.inr (Or.inr (Or.inr (Or.inr (Or.inr
                            (Or.inr (Or.inr (Or.inr (coerceNum_err h3))))))))))
                      · apply iff_of_false
                        · rintro ⟨e, he⟩
                          simp [validate, reqField, ht, hs, hp, hty, hsrc, hpid, hA, hC,
                            h1, h2, h3] at he
                        · rintro (h | h | h | h | h | h | ⟨ty', hty', hA'⟩
                            | ⟨src', hsrc', hcc⟩ | h | h | h)
                          · simp [ht] at h
                          · simp [ht, hty] at h
                          · simp [hs] at h
                          · simp [hs, hsrc] at h
                          · simp [hp] at h
                          · simp [hp, hpid] at h
                          · rw [Option.some.injEq] at hty'
                            subst hty'
                            exact hA' hA
                          · rw [Option.some.injEq] at hsrc'
                            subst hsrc'
                            rcases hcc with c | c | c | c
                            · rw [hC'.1] at c
                              exact Bool.noConfusion c
                            · rw [hC'.2.1] at c
                              exact Bool.noConfusion c
                            · rw [hC'.2.2.1] at c
                              exact Bool.noConfusion c
                            · rw [hC'.2.2.2] at c
                              exact Bool.noConfusion c
                          · exact coerceNum_ok_not_bad h1 h
                          · exact coerceNum_ok_not_bad h2 h
                          · exact coerceNum_ok_not_bad h3 h
              · simp [validate, reqField, ht, hs, hp, hty, hsrc, hpid, hA]

/-- C10: when ingestion finds an existing record for the incoming fingerprint
    and the blacklist no-op does not apply, the result is exactly the old
    table with only `last_opened_at` and `open_method` (the latter only when
    the incoming dict provides one) rewritten on the matched row: every other
    persisted field of every row — and hence the incoming title, description,
    thumbnail, season, episode, artist, album, channel, length and local-file
    fields — is untouched, and no row is inserted. -/
theorem update_path_frame (hm af : Bool) (fm : String → Option Meta) (now : Int)
    (d : IngestData) (origin : String) (s : State) (cd : CleanData) (ex : MediaItem)
    (hv : validate d = .ok cd)
    (hg : getByProvider s cd.provider_id cd.source = some ex)
    (hbl : ¬(ex.blacklist_flag = 1 ∧ origin = "external")) :
    addOrUpdate hm af fm now d origin s =
      .ok { s with rows := s.rows.map (fun r =>
        if r.id = ex.id then
          { r with last_opened_at := some now,
                   open_method := coalesce cd.open_method r.open_method }
        else r) } := by
  simp only [addOrUpdate, hv, hg]
  split
  next hcnd =>
    exfalso
    simp only [Bool.and_eq_true, decide_eq_true_eq, beq_iff_eq] at hcnd
    exact hbl hcnd
  next => rfl

/-- C10 witness: re-ingesting the fingerprint with a richer identification only
    bumps `last_opened_at`; the richer title and thumbnail are discarded. -/
theorem update_path_frame_witness :
    validate c10Data = .ok c10Clean
    ∧ addOrUpdate false true (fun _ => none) 500 c10Data "external" ⟨2, [c10Row]⟩ =
        .ok { nextId := 2, rows := [c10Row].map (fun r =>
          if r.id = c10Row.id then
            { r with last_opened_at := some 500,
                     open_method := coalesce c10Clean.open_method r.open_method }
          else r) } :=
  ⟨by decide,
    update_path_frame false true (fun _ => none) 500 c10Data "external" ⟨2, [c10Row]⟩
      c10Clean c10Row (by decide) (by decide) (by decide)⟩

/-- C1: for a valid identification whose fingerprint is not yet catalogued and
    which (like any provider output) carries no `open_method`, ingesting it
    twice creates exactly one record: the first call adds one row, exactly one
    row carries the fingerprint, and the second call returns the same table
    with only the new row's `last_opened_at` set to the second "now" — no
    second row, `open_method` untouched. -/
theorem ingest_idempotent (hm af : Bool) (fm : String → Option Meta) (now1 now2 : Int)
    (d : IngestData) (origin : String) (s0 s1 : State) (cd : CleanData)
    (hv : validate d = .ok cd)
    (hom : d.open_method = none)
    (hfresh : getByProvider s0 cd.provider_id cd.source = none)
    (h1 : addOrUpdate hm af fm now1 d origin s0 = .ok s1) :
    s1.rows.length = s0.rows.length + 1
    ∧ (s1.rows.filter (fun r => r.provider_id == cd.provider_id && r.source == cd.source)).length = 1
    ∧ addOrUpdate hm af fm now2 d origin s1 =
        .ok { s1 with rows := s1.rows.map (fun r =>
          if r.id = s0.nextId then { r with last_opened_at := some now2 } else r) } := by
  obtain ⟨hdty, hds, hdp, hcdom⟩ := validate_ok_shape hv
  have hcdom' : cd.open_method = none := hcdom.trans hom
  simp only [addOrUpdate, hv, hfresh, Except.ok.injEq] at h1
  subst h1
  obtain ⟨hp', hs', ho'⟩ := enrich_preserves hm af fm origin cd
  have hfresh' : List.find? (fun r => r.provider_id == cd.provider_id && r.source == cd.source)
      s0.rows = none := hfresh
  have hnewp : (mkRow s0.nextId now1 (enrichData hm af fm origin cd)).provider_id
      = cd.provider_id := hp'
  have hnews : (mkRow s0.nextId now1 (enrichData hm af fm origin cd)).source = cd.source := hs'
  refine ⟨by simp [insertRow], ?_, ?_⟩
  · have h0 : (s0.rows.filter fun r => r.provider_id == cd.provider_id && r.source == cd.source)
        = [] := by
      rw [List.filter_eq_nil_iff]
      intro a ha
      exact (List.find?_eq_none.mp hfresh') a ha
    simp only [insertRow, List.filter_append, h0, List.nil_append]
    simp [List.filter, hnewp, hnews]
  · have hfind : getByProvider (insertRow now1 (enrichData hm af fm origin cd) s0)
        cd.provider_id cd.source = some (mkRow s0.nextId now1 (enrichData hm af fm origin cd)) := by
      unfold getByProvider insertRow
      rw [find?_append_of_none _ _ _ hfresh']
      simp [List.find?, hnewp, hnews]
    simp only [addOrUpdate, hv, hfind]
    split
    next hcnd =>
      exfalso
      simp [mkRow] at hcnd
    next =>
      rw [Except.ok.injEq]
      unfold updateOpened
      simp [insertRow, mkRow, hcdom', coalesce]

/-- C1 witness: the concrete double ingestion of a Netflix identification into
    an empty catalogue. -/
theorem ingest_idempotent_witness :
    c1S1.rows.length = (⟨1, []⟩ : State).rows.length + 1
    ∧ (c1S1.rows.filter
        (fun r => r.provider_id == c1Clean.provider_id && r.source == c1Clean.source)).length = 1
    ∧ addOrUpdate false true (fun _ => none) 20 c1Data "external" c1S1 =
        .ok { c1S1 with rows := c1S1.rows.map (fun r =>
          if r.id = (⟨1, []⟩ : State).nextId then { r with last_opened_at := some 20 } else r) } :=
  ingest_idempotent false true (fun _ => none) 10 20 c1Data "external" ⟨1, []⟩ c1S1 c1Clean
    (by decide) (by decide) (by decide) (by decide)

/-- C4: the expiry sweep resets a blacklisted record with a set
    `blacklisted_at` and code 1–5 exactly when `now > blacklisted_at +
    duration(code)`, with durations 1 day, 1 week, 30 days, 90 days and 365
    days; a code-2 record suppressed at `T` survives a sweep at `T + 6` days
    and is reset by a sweep at `T + 8` days; a code-6 record is never
    auto-lifted. -/
theorem expiry_sweep_correct :
    (∀ (now : Int) (rows : List MediaItem), refreshBlacklist now rows = rows.map (sweepRow now))
    ∧ (∀ (now : Int) (r : MediaItem) (t e : Int),
        r.blacklist_flag = 1 → r.blacklisted_at = some t →
        expiryDate t r.procedure_code = some e →
        sweepRow now r =
          if now > e then
            { r with blacklist_flag := 0, procedure_code := 0, blacklisted_at := none }
          else r)
    ∧ (∀ t : Int, expiryDate t 1 = some (t + 86400) ∧ expiryDate t 2 = some (t + 7 * 86400)
        ∧ expiryDate t 3 = some (t + 30 * 86400) ∧ expiryDate t 4 = some (t + 90 * 86400)
        ∧ expiryDate t 5 = some (t + 365 * 86400) ∧ expiryDate t 6 = none)
    ∧ (∀ (now : Int) (r : MediaItem), r.procedure_code = 6 → sweepRow now r = r)
    ∧ (∀ (r : MediaItem) (T : Int),
        r.blacklist_flag = 1 → r.blacklisted_at = some T → r.procedure_code = 2 →
        sweepRow (T + 6 * 86400) r = r
        ∧ sweepRow (T + 8 * 86400) r =
            { r with blacklist_flag := 0, procedure_code := 0, blacklisted_at := none }) := by
  refine ⟨fun _ _ => rfl, ?_, ?_, ?_, ?_⟩
  · intro now r t e h1 h2 h3
    simp [sweepRow, h1, h2, h3]
  · intro t
    refine ⟨rfl, ?_, ?_, ?_, ?_, rfl⟩ <;> norm_num [expiryDate]
  · intro now r h6
    unfold sweepRow
    rcases hb : r.blacklisted_at with _ | t
    · split <;> simp
    · simp only [h6, expiryDate]
      norm_num
  · intro r T h1 h2 h3
    constructor
    · simp only [sweepRow, h1, h2, h3, expiryDate, if_pos rfl]
      norm_num
    · simp only [sweepRow, h1, h2, h3, expiryDate, if_pos rfl]
      norm_num

/-- C4 witness: the code-2 record suppressed at 100 survives the sweep at
    100 + 6 days and is reset by the sweep at 100 + 8 days. -/
theorem expiry_sweep_correct_witness :
    sweepRow (100 + 6 * 86400) c4Sample = c4Sample
    ∧ sweepRow (100 + 8 * 86400) c4Sample =
        { c4Sample with blacklist_flag := 0, procedure_code := 0, blacklisted_at := none } :=
  expiry_sweep_correct.2.2.2.2 c4Sample 100 (by decide) (by decide) (by decide)

/-- C6 counterexample: the claim quantifies over *any* code argument of the
    suppress operation, but `set_blacklist(id, True, procedure_code = 0)`
    produces a row with `blacklist_flag = 1` and `procedure_code = 0`, breaking
    the three-way equivalence. -/
theorem suppression_invariant_counterexample :
    RecInv c6Row ∧ ¬ StateInv (setBlacklist 100 1 true 0 [c6Row]) := by decide

/-- C6 (amended: the suppress operation is restricted to a non-zero code
    argument): insert and update via ingestion, suppress with non-zero code,
    lift, and the sweep all preserve the three-way equivalence
    `suppression_code == 0 ⇔ blacklisted == false ⇔ blacklisted_at == null`. -/
theorem suppression_invariant_preserved :
    (∀ (hm af : Bool) (fm : String → Option Meta) (now : Int) (d : IngestData)
        (origin : String) (s s' : State),
        StateInv s.rows → addOrUpdate hm af fm now d origin s = .ok s' → StateInv s'.rows)
    ∧ (∀ (now : Int) (itemId : Nat) (code : Int) (rows : List MediaItem), code ≠ 0 →
        StateInv rows → StateInv (setBlacklist now itemId true code rows))
    ∧ (∀ (now : Int) (itemId : Nat) (code : Int) (rows : List MediaItem),
        StateInv rows → StateInv (setBlacklist now itemId false code rows))
    ∧ (∀ (now : Int) (rows : List MediaItem),
        StateInv rows → StateInv (refreshBlacklist now rows)) := by
  refine ⟨?_, ?_, ?_, ?_⟩
  · intro hm af fm now d origin s s' hInv h
    rcases hv : validate d with e | cd
    · simp only [addOrUpdate, hv] at h
      exact Except.noConfusion h
    · simp only [addOrUpdate, hv] at h
      rcases hg : getByProvider s cd.provider_id cd.source with _ | ex
      · simp only [hg, Except.ok.injEq] at h
        subst h
        intro r hr
        rcases List.mem_append.mp hr with hold | hnew
        · exact hInv r hold
        · rcases List.mem_singleton.mp hnew with ⟨⟩
          exact ⟨by simp [mkRow], by simp [mkRow]⟩
      · simp only [hg] at h
        split at h <;> rw [Except.ok.injEq] at h <;> subst h
        · exact hInv
        · intro r hr
          rcases List.mem_map.mp hr with ⟨r0, hr0, rfl⟩
          split
          · exact ⟨(hInv r0 hr0).1, (hInv r0 hr0).2⟩
          · exact hInv r0 hr0
  · intro now itemId code rows hc hInv r hr
    unfold setBlacklist at hr
    rw [if_pos rfl] at hr
    rcases List.mem_map.mp hr with ⟨r0, hr0, rfl⟩
    split
    · exact ⟨⟨fun h => absurd h hc, by simp⟩, by simp⟩
    · exact hInv r0 hr0
  · intro now itemId code rows hInv r hr
    unfold setBlacklist at hr
    rw [if_neg (by simp)] at hr
    rcases List.mem_map.mp hr with ⟨r0, hr0, rfl⟩
    split
    · exact ⟨by simp, by simp⟩
    · exact hInv r0 hr0
  · intro now rows hInv r hr
    rcases List.mem_map.mp hr with ⟨r0, hr0, rfl⟩
    rcases sweepRow_cases now r0 with h | h <;> rw [h]
    · exact hInv r0 hr0
    · exact ⟨by simp, by simp⟩

/-- C6 witness: suppressing the sample row with the non-zero code 6 keeps the
    invariant. -/
theorem suppression_invariant_preserved_witness :
    StateInv (setBlacklist 100 1 true 6 [c6Row]) :=
  suppression_invariant_preserved.2.1 100 1 6 [c6Row] (by decide) (by decide)

theorem watcherFlags_getD (last : String) (ts : List String) (i : Nat) (h : i < ts.length) :
    ((watcherFlags last ts).getD i false = true ↔
      (ts.getD i "" ≠ "" ∧ ts.getD i "" ≠ lastNonEmpty last (ts.take i))) := by
  induction ts generalizing last i with
  | nil => simp at h
  | cons t ts ih =>
    cases i with
    | zero =>
      simp only [watcherFlags, watcherStep, List.take_zero, lastNonEmpty, List.foldl_nil]
      by_cases ht : t = ""
      · simp [ht]
      · by_cases htl : t = last
        · simp [ht, htl]
        · simp [ht, htl]
    | succ n =>
      have hn : n < ts.length := by simpa using h
      have hstep : (watcherStep last t).1 = (if t = "" then last else t) := by
        unfold watcherStep
        by_cases ht : t = ""
        · simp [ht]
        · by_cases htl : t = last
          · simp [ht, htl]
          · simp [ht, htl]
      have hfold : lastNonEmpty last (t :: List.take n ts)
          = lastNonEmpty (if t = "" then last else t) (List.take n ts) := by
        unfold lastNonEmpty
        by_cases ht : t = ""
        · simp [ht]
        · simp [ht]
      have h1 : (watcherFlags last (t :: ts)).getD (n + 1) false
          = (watcherFlags (watcherStep last t).1 ts).getD n false := by
        simp [watcherFlags]
      rw [h1, List.getD_cons_succ, List.take_succ_cons, hfold, ← hstep]
      exact ih (watcherStep last t).1 n hn

/-- C9 counterexample: over the observation sequence `["A", "", "A"]` the
    poller dispatches only once, although the third observed title is
    non-empty and differs from the immediately preceding observed title
    (the empty string), so the claim's "exactly when" fails. -/
theorem window_poller_counterexample :
    watcherFlags "" ["A", "", "A"] = [true, false, false]
    ∧ (["A", "", "A"].getD 2 "" ≠ "" ∧ ["A", "", "A"].getD 2 "" ≠ ["A", "", "A"].getD 1 "") := by
  decide

/-- C9 (amended: the comparison point is the most recent *non-empty* observed
    title, equivalently the last dispatched title): the poller dispatches at
    position `i` exactly when the observed title is non-empty and differs from
    the most recent non-empty observed title before it (initially `""`);
    consecutive identical titles dispatch once, and a title replaced by another
    non-empty title and reappearing dispatches again. -/
theorem window_poller_dedup (ts : List String) (i : Nat) (h : i < ts.length) :
    ((watcherFlags "" ts).getD i false = true ↔
      (ts.getD i "" ≠ "" ∧ ts.getD i "" ≠ lastNonEmpty "" (ts.take i))) :=
  watcherFlags_getD "" ts i h

/-- C9 witness: feeding the same title twice in a row, the second observation
    does not dispatch. -/
theorem window_poller_dedup_witness :
    ((watcherFlags "" ["A", "A"]).getD 1 false = true ↔
      (["A", "A"].getD 1 "" ≠ "" ∧ ["A", "A"].getD 1 "" ≠ lastNonEmpty "" (["A", "A"].take 1))) :=
  window_poller_dedup ["A", "A"] 1 (by decide)

theorem processEvent_error_iff (hm af : Bool) (fm : String → Option Meta) (now : Int)
    (e : Event) (s : State) (m : String) :
    processEvent hm af fm now e s = .error m ↔ validate e.data = .error m :=
  addOrUpdate_error_iff hm af fm now e.data e.origin s m

theorem validateOkB_of_processEvent_ok {hm af : Bool} {fm : String → Option Meta} {now : Int}
    {e : Event} {s s' : State} (h : processEvent hm af fm now e s = .ok s') :
    validateOkB e = true := by
  unfold validateOkB
  rcases hv : validate e.data with m | cd
  · rw [(processEvent_error_iff hm af fm now e s m).mpr hv] at h
    exact Except.noConfusion h
  · rfl

/-- Full characterisation of the drain loop of `process_queue`, for any
    starting counter `cnt ≤ 50`. -/
theorem drainLoop_spec (hm af : Bool) (fm : String → Option Meta) (now : Int) :
    ∀ (q : List Event) (cnt : Nat) (s : State) (hu : Bool) (log : List String), cnt ≤ 50 →
    drainLoop hm af fm now q cnt s hu log =
      ((q.take (50 - cnt)).foldl (processOne hm af fm now) s,
       q.drop (50 - cnt),
       hu || (q.take (50 - cnt)).any validateOkB,
       log ++ (q.take (50 - cnt)).filterMap validateErr) := by
  intro q
  induction q with
  | nil =>
    intro cnt s hu log _
    simp [drainLoop]
  | cons e rest ih =>
    intro cnt s hu log hc
    rcases lt_or_eq_of_le hc with hlt | heq
    · have hk : 50 - cnt = (50 - (cnt + 1)) + 1 := by omega
      rw [hk]
      simp only [List.take_succ_cons, List.drop_succ_cons]
      simp only [drainLoop]
      rw [if_pos hlt]
      rcases hpe : processEvent hm af fm now e s with m | s'
      · dsimp only
        have hv : validate e.data = .error m := (processEvent_error_iff hm af fm now e s m).mp hpe
        rw [ih (cnt + 1) s hu (log ++ [m]) (by omega)]
        have hone : processOne hm af fm now s e = s := by
          simp [processOne, hpe]
        have hok : validateOkB e = false := by
          simp [validateOkB, hv]
        simp [hone, hok, validateErr, hv, List.filterMap_cons]
      · dsimp only
        rw [ih (cnt + 1) s' true log (by omega)]
        have hone : processOne hm af fm now s e = s' := by
          simp [processOne, hpe]
        have hok : validateOkB e = true := validateOkB_of_processEvent_ok hpe
        have herr : validateErr e = none := by
          unfold validateErr validateOkB at *
          rcases hv : validate e.data with m | cd
          · rw [hv] at hok
            exact Bool.noConfusion hok
          · rfl
        simp [hone, hok, herr, List.filterMap_cons]
    · subst heq
      simp [drainLoop]

/-- C7: each tick drains exactly the first `min(50, |queue|)` items in FIFO
    order (the remaining queue is `drop 50`, never re-queuing anything); the
    resulting state is the left fold of the per-item step over the drained
    batch, where an item whose ingestion raises leaves the state exactly
    unchanged (caught, logged in order, dropped) while the rest of the batch
    is still applied; the loop itself is a total function, so a bad item never
    terminates it. -/
theorem ingestion_loop_isolation (hm af : Bool) (fm : String → Option Meta) (now : Int)
    (q : List Event) (s : State) :
    (processQueueTick hm af fm now q s).queue = q.drop 50
    ∧ (processQueueTick hm af fm now q s).state
        = (q.take 50).foldl (processOne hm af fm now) s
    ∧ (processQueueTick hm af fm now q s).log = (q.take 50).filterMap validateErr
    ∧ (∀ (e : Event) (st : State) (m : String),
        addOrUpdate hm af fm now e.data e.origin st = .error m →
        processOne hm af fm now st e = st) := by
  have h := drainLoop_spec hm af fm now q 0 s false []
  simp only [Nat.sub_zero, List.nil_append] at h
  rw [processQueueTick, h (by omega)]
  exact ⟨rfl, rfl, rfl, fun e st m hm' => by simp [processOne, processEvent, hm']⟩

/-- C7 witness: a malformed event (missing `provider_id`) inside a batch is
    dropped with its state unchanged. -/
theorem ingestion_loop_isolation_witness :
    (processQueueTick false true (fun _ => none) 100
        [{ data := { title := some "bad", type := some "movie", source := some "netflix" },
           origin := "external" }] ⟨1, []⟩).queue = []
    ∧ processOne false true (fun _ => none) 100 ⟨1, []⟩
        { data := { title := some "bad", type := some "movie", source := some "netflix" },
          origin := "external" } = ⟨1, []⟩ := by
  have h := ingestion_loop_isolation false true (fun _ => none) 100
    [{ data := { title := some "bad", type := some "movie", source := some "netflix" },
       origin := "external" }] ⟨1, []⟩
  exact ⟨h.1, h.2.2.2 _ ⟨1, []⟩ "Required field missing: provider_id" (by decide)⟩

/-- C5: the refresh notification fires at most once per tick (it is decided
    once, after the whole drained batch, never per item), and whenever the
    batch caused any persisted change (the state after the tick differs from
    the state before) it fires exactly once. -/
theorem batch_notification_coalesced (hm af : Bool) (fm : String → Option Meta) (now : Int) :
    (∀ (q : List Event) (s : State), (processQueueTick hm af fm now q s).refreshCount ≤ 1)
    ∧ (∀ (q : List Event) (s : State),
        (processQueueTick hm af fm now q s).state ≠ s →
        (processQueueTick hm af fm now q s).refreshCount = 1) := by
  have htick : ∀ (q : List Event) (s : State),
      processQueueTick hm af fm now q s =
        { state := (q.take 50).foldl (processOne hm af fm now) s,
          queue := q.drop 50,
          refreshCount := if (q.take 50).any validateOkB then 1 else 0,
          log := (q.take 50).filterMap validateErr } := by
    intro q s
    have h := drainLoop_spec hm af fm now q 0 s false []
    simp only [Nat.sub_zero, List.nil_append] at h
    rw [processQueueTick, h (by omega)]
    rfl
  have hfold : ∀ (l : List Event) (s : State), (∀ e ∈ l, validateOkB e = false) →
      l.foldl (processOne hm af fm now) s = s := by
    intro l
    induction l with
    | nil => intro s _; rfl
    | cons e rest ih =>
      intro s hall
      have he : validateOkB e = false := hall e (by simp)
      have hone : processOne hm af fm now s e = s := by
        unfold validateOkB at he
        rcases hv : validate e.data with m | cd
        · simp [processOne, (processEvent_error_iff hm af fm now e s m).mpr hv]
        · rw [hv] at he
          exact Bool.noConfusion he
      rw [List.foldl_cons, hone]
      exact ih s (fun x hx => hall x (by simp [hx]))
  constructor
  · intro q s
    rw [htick q s]
    dsimp only
    split <;> omega
  · intro q s hne
    rw [htick q s] at hne ⊢
    rcases hany : (q.take 50).any validateOkB with _ | _
    · exfalso
      apply hne
      dsimp only
      exact hfold (q.take 50) s (fun e he => by
        rcases hb : validateOkB e with _ | _
        · rfl
        · exfalso
          have : (q.take 50).any validateOkB = true := List.any_eq_true.mpr ⟨e, he, hb⟩
          rw [hany] at this
          exact Bool.noConfusion this)
    · simp [hany]

/-- C5 witness: draining the batch of 50 distinct new-file signals in one tick
    changes the state and produces exactly one change notification, not 50. -/
theorem batch_notification_coalesced_witness :
    (processQueueTick false true (fun _ => none) 100 c5Batch ⟨1, []⟩).state ≠ (⟨1, []⟩ : State)
    ∧ (processQueueTick false true (fun _ => none) 100 c5Batch ⟨1, []⟩).refreshCount = 1 :=
  ⟨by decide,
    (batch_notification_coalesced false true (fun _ => none) 100).2 c5Batch ⟨1, []⟩ (by decide)⟩

/-- C8 counterexample: `"twitch.tv/directory"` matches Twitch's structural
    identifier regex (capturing `"directory"`), yet the registry's delivered
    classification has `has_real_id = false` and a `provider_id` that is not
    the captured identifier — the Twitch classifier deliberately rejects its
    system pages and falls back to title cleaning. -/
theorem classify_structural_counterexample :
    structSearch .twitch "twitch.tv/directory" = some "directory"
    ∧ ((identify (fun _ => false) (fun _ => none) "twitch.tv/directory").map
        (fun r => r.has_real_id)) = some false
    ∧ ((identify (fun _ => false) (fun _ => none) "twitch.tv/directory").map
        (fun r => r.provider_id)) = some (some "twitch.tv/directory") := by
  decide

/-- C8 (amended: the service whose structural regex matches must also be the
    first provider in registry order whose `matches` accepts the text, and for
    Twitch the captured channel must not be one of the filtered system pages
    `directory`/`settings`/`videos`): then the registry delivers that
    service's structural result with `has_real_id = true` and `provider_id`
    equal to the captured identifier exactly. -/
theorem classify_structural (lm : String → Bool) (le : String → Option IngestData)
    (s : String) (svc : Svc) (pid : String)
    (hstruct : structSearch svc s = some pid)
    (hfirst : ∀ p ∈ svcEarlier svc, svcMatches p s = false)
    (htw : svc = .twitch → (["directory", "settings", "videos"].contains (strLower pid)) = false) :
    ∃ r, identify lm le s = some r ∧ r.has_real_id = true ∧ r.provider_id = some pid := by
  cases svc with
  | netflix =>
    simp only [structSearch] at hstruct
    simp [identify, provContrib, netflixMatches, netflixExtract, hstruct, List.findSome?]
  | disney =>
    have hN : netflixMatches s = false := hfirst .netflix (by simp [svcEarlier])
    simp only [structSearch] at hstruct
    simp [identify, provContrib, hN, disneyMatches, disneyExtract, hstruct, List.findSome?]
  | prime =>
    have hN : netflixMatches s = false := hfirst .netflix (by simp [svcEarlier])
    have hD : disneyMatches s = false := hfirst .disney (by simp [svcEarlier])
    simp only [structSearch] at hstruct
    rcases hp1 : prime1Search s with _ | r1
    · have hp2 : prime2Search s = some pid := by simpa [primeSearch, hp1] using hstruct
      simp [identify, provContrib, hN, hD, primeMatches, primeExtract, primeSearch, hp1, hp2,
        List.findSome?]
    · have hr1 : r1 = pid := by simpa [primeSearch, hp1] using hstruct
      subst hr1
      simp [identify, provContrib, hN, hD, primeMatches, primeExtract, primeSearch, hp1,
        List.findSome?]
  | appletv =>
    have hN : netflixMatches s = false := hfirst .netflix (by simp [svcEarlier])
    have hD : disneyMatches s = false := hfirst .disney (by simp [svcEarlier])
    have hP : primeMatches s = false := hfirst .prime (by simp [svcEarlier])
    simp only [structSearch] at hstruct
    simp [identify, provContrib, hN, hD, hP, appleMatches, appleExtract, hstruct, List.findSome?]
  | youtube =>
    have hN : netflixMatches s = false := hfirst .netflix (by simp [svcEarlier])
    have hD : disneyMatches s = false := hfirst .disney (by simp [svcEarlier])
    have hP : primeMatches s = false := hfirst .prime (by simp [svcEarlier])
    have hA : appleMatches s = false := hfirst .appletv (by simp [svcEarlier])
    simp only [structSearch] at hstruct
    simp [identify, provContrib, hN, hD, hP, hA, youtubeMatches, youtubeExtract, hstruct,
      List.findSome?]
  | twitch =>
    have hN : netflixMatches s = false := hfirst .netflix (by simp [svcEarlier])
    have hD : disneyMatches s = false := hfirst .disney (by simp [svcEarlier])
    have hP : primeMatches s = false := hfirst .prime (by simp [svcEarlier])
    have hA : appleMatches s = false := hfirst .appletv (by simp [svcEarlier])
    have hY : youtubeMatches s = false := hfirst .youtube (by simp [svcEarlier])
    have htwf : ¬(strLower pid = "directory" ∨ strLower pid = "settings"
        ∨ strLower pid = "videos") := by
      simpa using htw rfl
    simp only [structSearch] at hstruct
    simp [identify, provContrib, hN, hD, hP, hA, hY, twitchMatches, twitchExtract, hstruct,
      htwf, List.findSome?]
  | spotify =>
    have hN : netflixMatches s = false := hfirst .netflix (by simp [svcEarlier])
    have hD : disneyMatches s = false := hfirst .disney (by simp [svcEarlier])
    have hP : primeMatches s = false := hfirst .prime (by simp [svcEarlier])
    have hA : appleMatches s = false := hfirst .appletv (by simp [svcEarlier])
    have hY : youtubeMatches s = false := hfirst .youtube (by simp [svcEarlier])
    have hT : twitchMatches s = false := hfirst .twitch (by simp [svcEarlier])
    simp only [structSearch] at hstruct
    rcases hsp : spotifySearch s with _ | pr
    · rw [hsp] at hstruct
      exact Option.noConfusion hstruct
    · obtain ⟨ct, cid⟩ := pr
      have hcid : cid = pid := by simpa [hsp] using hstruct
      subst hcid
      simp [identify, provContrib, hN, hD, hP, hA, hY, hT, spotifyMatches, spotifyExtract, hsp,
        List.findSome?]

/-- C8 witness: the canonical YouTube watch URL is classified with
    `has_real_id = true` and the captured video id. -/
theorem classify_structural_witness :
    ∃ r, identify (fun _ => false) (fun _ => none)
        "https://www.youtube.com/watch?v=dQw4w9WgXcQ" = some r
      ∧ r.has_real_id = true ∧ r.provider_id = some "dQw4w9WgXcQ" :=
  classify_structural (fun _ => false) (fun _ => none)
    "https://www.youtube.com/watch?v=dQw4w9WgXcQ" .youtube "dQw4w9WgXcQ"
    (by decide) (by decide) (by decide)

/-- C2 (evaluation at the failing input): the window watcher dispatches its
    passive observations with origin `"window_watcher"`, not `"external"`, so
    the `blacklist_flag == 1 and origin == "external"` guard in
    `add_or_update` does not fire: ingesting the observation mutates the
    suppressed record (`last_opened_at` is rewritten) instead of being a
    no-op.  With the origin value the guard and the `add_or_update` docstring
    actually name (`"external"`), the no-op holds and the record is left
    completely unchanged. -/
theorem suppression_resurrection_bug :
    dispatch (fun _ => false) (fun _ => none) "twitch.tv/streamer" windowWatcherOrigin
      = some { data := c2Data, origin := "window_watcher" }
    ∧ addOrUpdate false true (fun _ => none) 500 c2Data windowWatcherOrigin c2State =
        .ok ⟨2, [{ c2BlkRow with last_opened_at := some 500 }]⟩
    ∧ ({ c2BlkRow with last_opened_at := some 500 } : MediaItem) ≠ c2BlkRow
    ∧ addOrUpdate false true (fun _ => none) 500 c2Data "external" c2State = .ok c2State := by
  decide

end MediaBrain
